import Mathlib

/-!
Shallow embedding of the demo hostpath CSI driver
(cmd/main.go, pkg/driver: driver.go, identity.go, controller.go, node.go).

Filesystem and mount-table effects are modelled explicitly: `FsState` holds
the set of existing directories and the host mount table (a stack, newest
first).  Environmental failures of the underlying os/syscall primitives
(permission denied, disk full, device busy, ...) are injected through
explicit `Option SysErr` parameters; state-determined outcomes (path
already exists, target not a mount point) are computed from `FsState`,
following the documented semantics of os.MkdirAll, os.RemoveAll, mount(2)
with MS_BIND, and umount(2).
-/

namespace DemoCsi

/-- gRPC status codes used by the driver (google.golang.org/grpc/codes). -/
inductive Code where
  | ok
  | invalidArgument
  | internal
  | unimplemented
  | unknown
  deriving DecidableEq, Repr

/-- A structured gRPC error as produced by status.Error / status.Errorf. -/
structure GrpcError where
  code : Code
  msg : String
  deriving DecidableEq, Repr

/-- errno-style failures reported by the os/syscall layer. -/
inductive SysErr where
  | EINVAL
  | EACCES
  | ENOENT
  | ENOSPC
  | EBUSY
  | EPERM
  deriving DecidableEq, Repr

/-- One live bind mount: target path, source path, read-only flag. -/
structure Mount where
  target : String
  source : String
  readOnly : Bool
  deriving DecidableEq, Repr

/-- Host state visible to the driver: the existing directories and the
mount table.  The mount table is a stack (newest mount first): Linux lets a
second bind mount stack on top of an existing mount at the same target. -/
structure FsState where
  dirs : List String
  mounts : List Mount
  deriving DecidableEq, Repr

/-- filepath.Join for a clean directory and a clean, non-empty component,
as used for stateDir/volumeID throughout the driver. -/
def filepathJoin (a b : String) : String := a ++ "/" ++ b

/-- Error result of os.MkdirAll: nil when the path already exists as a
directory; otherwise an environmental failure may occur. -/
def mkdirAllRes (p : String) (s : FsState) (envFail : Option SysErr) : Option SysErr :=
  if p ∈ s.dirs then none else envFail

/-- State after a successful os.MkdirAll (parent directories elided: the
model tracks the directories the driver addresses). -/
def mkdirAllState (p : String) (s : FsState) : FsState :=
  if p ∈ s.dirs then s else { s with dirs := p :: s.dirs }

/-- Error result of os.RemoveAll: nil when the path does not exist;
otherwise an environmental failure may occur. -/
def removeAllRes (p : String) (s : FsState) (envFail : Option SysErr) : Option SysErr :=
  if p ∈ s.dirs then envFail else none

/-- State after a successful os.RemoveAll: the path and everything under
it is removed. -/
def removeAllState (p : String) (s : FsState) : FsState :=
  { s with dirs := s.dirs.filter (fun d => !(d == p || String.isPrefixOf (p ++ "/") d)) }

/-- Whether the target path is currently a mount point. -/
def isMounted (target : String) (s : FsState) : Bool :=
  s.mounts.any (fun m => m.target == target)

/-- Error result of mount(source, target, "", MS_BIND[|MS_RDONLY], ""):
both directories must exist; bind-mounting onto a target that is already a
mount point succeeds and stacks a further mount on top of it. -/
def mountBindRes (src target : String) (s : FsState) (envFail : Option SysErr) : Option SysErr :=
  if src ∈ s.dirs ∧ target ∈ s.dirs then envFail else some .ENOENT

/-- State after a successful bind mount: pushed onto the mount stack. -/
def mountBindState (src target : String) (ro : Bool) (s : FsState) : FsState :=
  { s with mounts := ⟨target, src, ro⟩ :: s.mounts }

/-- Remove the topmost (most recent) mount at the given target. -/
def removeTop (target : String) : List Mount → List Mount
  | [] => []
  | m :: ms => if m.target = target then ms else m :: removeTop target ms

/-- Error result of umount(target, 0): EINVAL when the target is not a
mount point; otherwise an environmental failure may occur. -/
def unmountRes (target : String) (s : FsState) (envFail : Option SysErr) : Option SysErr :=
  if isMounted target s then envFail else some .EINVAL

/-- State after a successful umount: pops the topmost mount at target. -/
def unmountState (target : String) (s : FsState) : FsState :=
  { s with mounts := removeTop target s.mounts }

/-- csi.VolumeCapability_AccessMode_Mode (proto enum; UNKNOWN is the zero
value).  SINGLE_NODE_WRITER is the spec's "single-writer",
SINGLE_NODE_READER_ONLY its "single-reader", MULTI_NODE_READER_ONLY its
"multi-reader". -/
inductive AccessMode where
  | UNKNOWN
  | SINGLE_NODE_WRITER
  | SINGLE_NODE_READER_ONLY
  | MULTI_NODE_READER_ONLY
  | MULTI_NODE_SINGLE_WRITER
  | MULTI_NODE_MULTI_WRITER
  deriving DecidableEq, Repr

/-- csi.VolumeCapability; the access mode is the only field this driver
ever reads, and requests are echoed back whole. -/
structure VolumeCapability where
  accessMode : Option AccessMode
  deriving DecidableEq, Repr

/-- cap.GetAccessMode().GetMode(): proto getters return the zero value
(UNKNOWN) when the nested AccessMode message is absent. -/
def VolumeCapability.getMode (c : VolumeCapability) : AccessMode :=
  c.accessMode.getD .UNKNOWN

/-- csi.CapacityRange (int64 fields). -/
structure CapacityRange where
  requiredBytes : Int
  limitBytes : Int
  deriving DecidableEq, Repr

structure CreateVolumeRequest where
  name : String
  volumeCapabilities : List VolumeCapability
  capacityRange : Option CapacityRange
  parameters : List (String × String)
  deriving DecidableEq, Repr

structure Volume where
  volumeId : String
  capacityBytes : Int
  volumeContext : List (String × String)
  deriving DecidableEq, Repr

structure CreateVolumeResponse where
  volume : Volume
  deriving DecidableEq, Repr

structure DeleteVolumeRequest where
  volumeId : String
  deriving DecidableEq, Repr

structure ValidateVolumeCapabilitiesRequest where
  volumeId : String
  volumeCapabilities : List VolumeCapability
  deriving DecidableEq, Repr

/-- csi.ValidateVolumeCapabilitiesResponse_Confirmed. -/
structure ConfirmedCapabilities where
  volumeCapabilities : List VolumeCapability
  deriving DecidableEq, Repr

structure ValidateVolumeCapabilitiesResponse where
  confirmed : Option ConfirmedCapabilities
  message : String
  deriving DecidableEq, Repr

structure NodePublishVolumeRequest where
  volumeId : String
  targetPath : String
  volumeCapability : Option VolumeCapability
  readonly : Bool
  deriving DecidableEq, Repr

structure NodeUnpublishVolumeRequest where
  volumeId : String
  targetPath : String
  deriving DecidableEq, Repr

/-- Driver state fixed at process start (driver.go). -/
structure Driver where
  nodeID : String
  stateDir : String
  deriving DecidableEq, Repr

/-- driver.go: const driverName. -/
def driverName : String := "demo.csi.example.com"

/-- identity.go: const driverVersion. -/
def driverVersion : String := "v0.1.0"

/-- controllerServer.CreateVolume: validates name and capabilities,
ensures the backing directory stateDir/name exists via os.MkdirAll
(pre-existing directory is success), and returns the volume description
built purely from the request.  DeleteVolumeResponse-style empty messages
are modelled as Unit; mkdirFail injects an environmental MkdirAll failure. -/
def CreateVolume (d : Driver) (req : CreateVolumeRequest) (mkdirFail : Option SysErr)
    (s : FsState) : Except GrpcError (CreateVolumeResponse × FsState) :=
  if req.name = "" then
    .error ⟨.invalidArgument, "volume name is required"⟩
  else if req.volumeCapabilities.length = 0 then
    .error ⟨.invalidArgument, "volume capabilities are required"⟩
  else
    match mkdirAllRes (filepathJoin d.stateDir req.name) s mkdirFail with
    | some _ =>
      .error ⟨.internal, "failed to create volume dir " ++ filepathJoin d.stateDir req.name⟩
    | none =>
      .ok (⟨⟨req.name,
        (match req.capacityRange with | some cr => cr.requiredBytes | none => 0),
        req.parameters⟩⟩,
        mkdirAllState (filepathJoin d.stateDir req.name) s)

/-- controllerServer.DeleteVolume: validates the id, removes the backing
directory via os.RemoveAll (non-existent path is success), Internal on any
reported removal error. -/
def DeleteVolume (d : Driver) (req : DeleteVolumeRequest) (removeFail : Option SysErr)
    (s : FsState) : Except GrpcError (Unit × FsState) :=
  if req.volumeId = "" then
    .error ⟨.invalidArgument, "volume ID is required"⟩
  else
    match removeAllRes (filepathJoin d.stateDir req.volumeId) s removeFail with
    | some _ =>
      .error ⟨.internal, "failed to delete volume dir " ++ filepathJoin d.stateDir req.volumeId⟩
    | none => .ok ((), removeAllState (filepathJoin d.stateDir req.volumeId) s)

/-- The per-capability check in controllerServer.ValidateVolumeCapabilities:
mode != SINGLE_NODE_WRITER && mode != SINGLE_NODE_READER_ONLY &&
mode != MULTI_NODE_READER_ONLY. -/
def unsupportedMode : AccessMode → Bool
  | .SINGLE_NODE_WRITER => false
  | .SINGLE_NODE_READER_ONLY => false
  | .MULTI_NODE_READER_ONLY => false
  | _ => true

/-- The allow-list of access modes, as the spec words it. -/
def allowedModes : List AccessMode :=
  [.SINGLE_NODE_WRITER, .SINGLE_NODE_READER_ONLY, .MULTI_NODE_READER_ONLY]

/-- controllerServer.ValidateVolumeCapabilities: after the argument checks,
the Go loop returns the message-only response on the first capability with
an unsupported access mode (List.any computes the same condition), and
otherwise confirms, echoing the requested capabilities. -/
def ValidateVolumeCapabilities (req : ValidateVolumeCapabilitiesRequest) :
    Except GrpcError ValidateVolumeCapabilitiesResponse :=
  if req.volumeId = "" then
    .error ⟨.invalidArgument, "volume ID is required"⟩
  else if req.volumeCapabilities.length = 0 then
    .error ⟨.invalidArgument, "volume capabilities are required"⟩
  else if req.volumeCapabilities.any (fun c => unsupportedMode c.getMode) then
    .ok ⟨none, "unsupported access mode"⟩
  else
    .ok ⟨some ⟨req.volumeCapabilities⟩, ""⟩

/-- nodeServer.NodePublishVolume: validates the arguments, ensures the
backing directory and the target directory exist (os.MkdirAll each), then
issues mount(volumeDir, targetPath, "", MS_BIND[|MS_RDONLY], "")
unconditionally — the source performs no already-mounted check before the
mount call. -/
def NodePublishVolume (d : Driver) (req : NodePublishVolumeRequest)
    (mkdirVolFail mkdirTargetFail mountFail : Option SysErr) (s : FsState) :
    Except GrpcError (Unit × FsState) :=
  if req.volumeId = "" then
    .error ⟨.invalidArgument, "volume ID is required"⟩
  else if req.targetPath = "" then
    .error ⟨.invalidArgument, "target path is required"⟩
  else if req.volumeCapability = none then
    .error ⟨.invalidArgument, "volume capability is required"⟩
  else
    match mkdirAllRes (filepathJoin d.stateDir req.volumeId) s mkdirVolFail with
    | some _ =>
      .error ⟨.internal, "failed to create volume dir " ++ filepathJoin d.stateDir req.volumeId⟩
    | none =>
      match mkdirAllRes req.targetPath
          (mkdirAllState (filepathJoin d.stateDir req.volumeId) s) mkdirTargetFail with
      | some _ => .error ⟨.internal, "failed to create target dir " ++ req.targetPath⟩
      | none =>
        match mountBindRes (filepathJoin d.stateDir req.volumeId) req.targetPath
            (mkdirAllState req.targetPath
              (mkdirAllState (filepathJoin d.stateDir req.volumeId) s)) mountFail with
        | some _ =>
          .error ⟨.internal,
            "bind mount " ++ filepathJoin d.stateDir req.volumeId ++ " to " ++ req.targetPath ++ " failed"⟩
        | none =>
          .ok ((), mountBindState (filepathJoin d.stateDir req.volumeId) req.targetPath req.readonly
            (mkdirAllState req.targetPath
              (mkdirAllState (filepathJoin d.stateDir req.volumeId) s)))

/-- nodeServer.NodeUnpublishVolume: validates the arguments and issues
umount(targetPath, 0); a returned EINVAL (path not mounted) is treated as
success, any other unmount error becomes Internal. -/
def NodeUnpublishVolume (_d : Driver) (req : NodeUnpublishVolumeRequest)
    (unmountFail : Option SysErr) (s : FsState) : Except GrpcError (Unit × FsState) :=
  if req.volumeId = "" then
    .error ⟨.invalidArgument, "volume ID is required"⟩
  else if req.targetPath = "" then
    .error ⟨.invalidArgument, "target path is required"⟩
  else
    match unmountRes req.targetPath s unmountFail with
    | some e =>
      if e = .EINVAL then .ok ((), s)
      else .error ⟨.internal, "unmount " ++ req.targetPath ++ " failed"⟩
    | none => .ok ((), unmountState req.targetPath s)

/-- csi.GetPluginInfoRequest is an empty proto message. -/
structure GetPluginInfoRequest where
  deriving DecidableEq, Repr

structure GetPluginInfoResponse where
  name : String
  vendorVersion : String
  deriving DecidableEq, Repr

/-- csi.ProbeRequest is an empty proto message. -/
structure ProbeRequest where
  deriving DecidableEq, Repr

/-- identityServer.GetPluginInfo: fixed driver name and version; the
request is unused. -/
def GetPluginInfo (_req : GetPluginInfoRequest) : Except GrpcError GetPluginInfoResponse :=
  .ok ⟨driverName, driverVersion⟩

/-- identityServer.Probe: a nil request is rejected with InvalidArgument,
any present request reports ready (the empty ProbeResponse, modelled as
Unit). -/
def Probe (req : Option ProbeRequest) : Except GrpcError Unit :=
  match req with
  | none => .error ⟨.invalidArgument, "nil request"⟩
  | some _ => .ok ()

/-- A log line written through klog. -/
inductive LogEntry where
  | info (verbosity : Nat) (msg : String)
  | error (msg : String)
  deriving DecidableEq, Repr

/-- logInterceptor (driver.go): logs the method name on entry and an
error-level line when the outcome carries a non-OK status, then returns
the handler's response and error unchanged.  The log is an explicit second
component in place of klog's global sink.  A handler outcome is a response
together with an optional structured error (a non-status Go error is
modelled with code unknown, which is not OK). -/
def logInterceptor {Req Resp : Type} (fullMethod : String)
    (handler : Req → Option Resp × Option GrpcError) (req : Req) :
    (Option Resp × Option GrpcError) × List LogEntry :=
  match handler req with
  | (resp, some e) =>
    if e.code ≠ Code.ok then
      ((resp, some e), [LogEntry.info 4 ("RPC -> " ++ fullMethod),
        LogEntry.error ("RPC " ++ fullMethod ++ " failed: " ++ e.msg)])
    else
      ((resp, some e), [LogEntry.info 4 ("RPC -> " ++ fullMethod)])
  | (resp, none) => ((resp, none), [LogEntry.info 4 ("RPC -> " ++ fullMethod)])

inductive ControllerRequest where
  | createVolume (req : CreateVolumeRequest)
  | deleteVolume (req : DeleteVolumeRequest)
  | validateVolumeCapabilities (req : ValidateVolumeCapabilitiesRequest)
  deriving DecidableEq, Repr

inductive ControllerResponse where
  | createVolume (r : CreateVolumeResponse)
  | deleteVolume
  | validateVolumeCapabilities (r : ValidateVolumeCapabilitiesResponse)
  deriving DecidableEq, Repr

/-- Dispatch over the controller service methods of controller.go,
threading the host state.  ValidateVolumeCapabilities performs no
filesystem call in the source, so its branch returns the state unchanged. -/
def controllerServe (d : Driver) (cr : ControllerRequest) (envFail : Option SysErr)
    (s : FsState) : Except GrpcError (ControllerResponse × FsState) :=
  match cr with
  | .createVolume req =>
    (CreateVolume d req envFail s).map (fun p => (.createVolume p.1, p.2))
  | .deleteVolume req =>
    (DeleteVolume d req envFail s).map (fun p => (.deleteVolume, p.2))
  | .validateVolumeCapabilities req =>
    (ValidateVolumeCapabilities req).map (fun r => (.validateVolumeCapabilities r, s))

/-- A driver configured with the default state directory of cmd/main.go. -/
def dDemo : Driver := ⟨"node-1", "/var/lib/demo-csi/volumes"⟩

def capSingleWriter : VolumeCapability := ⟨some .SINGLE_NODE_WRITER⟩

def sEmpty : FsState := ⟨[], []⟩

def pubReqDemo : NodePublishVolumeRequest :=
  ⟨"pvc-1", "/pods/x/vol", some capSingleWriter, false⟩

/-- State after the first NodePublishVolume of pubReqDemo from sEmpty. -/
def sAfterPub1 : FsState :=
  ⟨["/pods/x/vol", "/var/lib/demo-csi/volumes/pvc-1"],
   [⟨"/pods/x/vol", "/var/lib/demo-csi/volumes/pvc-1", false⟩]⟩

/-- State after repeating the same NodePublishVolume: two stacked mounts. -/
def sAfterPub2 : FsState :=
  ⟨["/pods/x/vol", "/var/lib/demo-csi/volumes/pvc-1"],
   [⟨"/pods/x/vol", "/var/lib/demo-csi/volumes/pvc-1", false⟩,
    ⟨"/pods/x/vol", "/var/lib/demo-csi/volumes/pvc-1", false⟩]⟩

def createReqDemo : CreateVolumeRequest :=
  ⟨"pvc-1", [capSingleWriter], some ⟨1073741824, 0⟩, []⟩

/-- A request whose only capability carries a mode outside the allow-list. -/
def vvcReqBad : ValidateVolumeCapabilitiesRequest :=
  ⟨"pvc-1", [⟨some .MULTI_NODE_MULTI_WRITER⟩]⟩

/-- A request whose capabilities all carry allowed modes. -/
def vvcReqGood : ValidateVolumeCapabilitiesRequest :=
  ⟨"pvc-1", [capSingleWriter, ⟨some .MULTI_NODE_READER_ONLY⟩]⟩

/-- A request with one capability whose access-mode message is absent. -/
def vvcReqNoMode : ValidateVolumeCapabilitiesRequest :=
  ⟨"pvc-1", [⟨none⟩]⟩

/-- The response CreateVolume builds for createReqDemo. -/
def rDemo : CreateVolumeResponse := ⟨⟨"pvc-1", 1073741824, []⟩⟩

/-- State after CreateVolume of createReqDemo from sEmpty. -/
def sAfterCreate : FsState := ⟨["/var/lib/demo-csi/volumes/pvc-1"], []⟩

theorem mkdirAllRes_envNone (p : String) (s : FsState) : mkdirAllRes p s none = none := by
  unfold mkdirAllRes; split <;> rfl

theorem mkdirAllRes_of_mem {p : String} {s : FsState} (h : p ∈ s.dirs) (f : Option SysErr) :
    mkdirAllRes p s f = none := by
  unfold mkdirAllRes; simp [h]

theorem mem_mkdirAllState (p : String) (s : FsState) : p ∈ (mkdirAllState p s).dirs := by
  unfold mkdirAllState; split
  · assumption
  · exact List.mem_cons_self _ _

theorem mkdirAllState_of_mem {p : String} {s : FsState} (h : p ∈ s.dirs) :
    mkdirAllState p s = s := by
  unfold mkdirAllState; simp [h]

theorem unsupportedMode_iff (m : AccessMode) :
    unsupportedMode m = true ↔ m ∉ allowedModes := by
  cases m <;> simp [unsupportedMode, allowedModes]

/-- C1: the claim says that repeating NodePublishVolume with identical
arguments succeeds twice and leaves exactly one active binding at the
target path.  Both calls do succeed, but nodeServer.NodePublishVolume
issues the MS_BIND mount unconditionally, so the second call stacks a
second bind mount at the target: the mount table then holds two active
bindings there, and one NodeUnpublishVolume leaves the target still
mounted. -/
theorem C1_publish_twice_stacks_mounts :
    NodePublishVolume dDemo pubReqDemo none none none sEmpty = .ok ((), sAfterPub1) ∧
    NodePublishVolume dDemo pubReqDemo none none none sAfterPub1 = .ok ((), sAfterPub2) ∧
    (sAfterPub2.mounts.filter (fun m => m.target == pubReqDemo.targetPath)).length = 2 ∧
    NodeUnpublishVolume dDemo ⟨"pvc-1", "/pods/x/vol"⟩ none sAfterPub2 = .ok ((), sAfterPub1) ∧
    isMounted "/pods/x/vol" sAfterPub1 = true :=
  ⟨rfl, rfl, rfl, rfl, rfl⟩

/-- C2: for every non-empty name and non-empty capability list, calling
CreateVolume twice with the same request yields two identical successful
responses with the same volume id, the second call succeeds even if the
environment would fail a fresh MkdirAll (the backing directory already
exists), and the second call leaves the state unchanged. -/
theorem C2_createVolume_idempotent (d : Driver) (req : CreateVolumeRequest) (s : FsState)
    (fail2 : Option SysErr) (hname : req.name ≠ "") (hcaps : req.volumeCapabilities ≠ []) :
    ∃ r1 s1,
      CreateVolume d req none s = .ok (r1, s1) ∧
      CreateVolume d req fail2 s1 = .ok (r1, s1) ∧
      r1.volume.volumeId = req.name := by
  have hlen : ¬ req.volumeCapabilities.length = 0 := by
    simpa [List.length_eq_zero] using hcaps
  refine ⟨⟨⟨req.name,
      (match req.capacityRange with | some cr => cr.requiredBytes | none => 0),
      req.parameters⟩⟩,
    mkdirAllState (filepathJoin d.stateDir req.name) s, ?_, ?_, rfl⟩
  · simp [CreateVolume, hname, hlen, mkdirAllRes_envNone]
  · simp [CreateVolume, hname, hlen,
      mkdirAllRes_of_mem (mem_mkdirAllState _ _) fail2,
      mkdirAllState_of_mem (mem_mkdirAllState _ _)]

/-- Witness for C2 at a concrete input. -/
theorem C2_createVolume_idempotent_witness :
    createReqDemo.name ≠ "" ∧ createReqDemo.volumeCapabilities ≠ [] ∧
    ∃ r1 s1,
      CreateVolume dDemo createReqDemo none sEmpty = .ok (r1, s1) ∧
      CreateVolume dDemo createReqDemo (some .EACCES) s1 = .ok (r1, s1) ∧
      r1.volume.volumeId = createReqDemo.name :=
  ⟨by decide, by decide,
    C2_createVolume_idempotent dDemo createReqDemo sEmpty (some .EACCES)
      (by decide) (by decide)⟩

/-- C3: for every request with non-empty volume id and non-empty
capability list, ValidateVolumeCapabilities returns a non-error response
with no confirmation and a non-empty message when some requested mode is
outside the allow-list, and a confirmation echoing all requested
capabilities unchanged when every mode is allowed. -/
theorem C3_validate_reject_or_confirm (req : ValidateVolumeCapabilitiesRequest)
    (hid : req.volumeId ≠ "") (hcaps : req.volumeCapabilities ≠ []) :
    ((∃ c ∈ req.volumeCapabilities, c.getMode ∉ allowedModes) →
      ValidateVolumeCapabilities req = .ok ⟨none, "unsupported access mode"⟩ ∧
      ("unsupported access mode" : String) ≠ "") ∧
    ((∀ c ∈ req.volumeCapabilities, c.getMode ∈ allowedModes) →
      ValidateVolumeCapabilities req = .ok ⟨some ⟨req.volumeCapabilities⟩, ""⟩) := by
  have hlen : ¬ req.volumeCapabilities.length = 0 := by
    simpa [List.length_eq_zero] using hcaps
  constructor
  · rintro ⟨c, hc, hm⟩
    have hany : req.volumeCapabilities.any (fun c => unsupportedMode c.getMode) = true :=
      List.any_eq_true.mpr ⟨c, hc, (unsupportedMode_iff _).mpr hm⟩
    exact ⟨by simp [ValidateVolumeCapabilities, hid, hlen, hany], by decide⟩
  · intro hall
    have hany : req.volumeCapabilities.any (fun c => unsupportedMode c.getMode) = false := by
      rw [List.any_eq_false]
      intro c hc
      simp only [unsupportedMode_iff, Decidable.not_not]
      exact hall c hc
    simp [ValidateVolumeCapabilities, hid, hlen, hany]

/-- Witness for C3 at concrete inputs: one rejected, one confirmed. -/
theorem C3_validate_reject_or_confirm_witness :
    vvcReqBad.volumeId ≠ "" ∧ vvcReqBad.volumeCapabilities ≠ [] ∧
    ValidateVolumeCapabilities vvcReqBad = .ok ⟨none, "unsupported access mode"⟩ ∧
    ValidateVolumeCapabilities vvcReqGood = .ok ⟨some ⟨vvcReqGood.volumeCapabilities⟩, ""⟩ :=
  ⟨by decide, by decide,
    ((C3_validate_reject_or_confirm vvcReqBad (by decide) (by decide)).1
      ⟨⟨some .MULTI_NODE_MULTI_WRITER⟩, by decide, by decide⟩).1,
    (C3_validate_reject_or_confirm vvcReqGood (by decide) (by decide)).2 (by decide)⟩

/-- C4: DeleteVolume fails with InvalidArgument exactly when the volume id
is empty (any other failure carries code Internal); with a non-empty id it
succeeds whenever the backing path does not exist, for every injected
removal outcome; and a reported removal failure on an existing path yields
an Internal error. -/
theorem C4_deleteVolume_taxonomy (d : Driver) (req : DeleteVolumeRequest)
    (fail : Option SysErr) (s : FsState) :
    (req.volumeId = "" →
      DeleteVolume d req fail s = .error ⟨.invalidArgument, "volume ID is required"⟩) ∧
    (req.volumeId ≠ "" →
      (∀ e, DeleteVolume d req fail s = .error e → e.code = .internal) ∧
      (filepathJoin d.stateDir req.volumeId ∉ s.dirs →
        DeleteVolume d req fail s =
          .ok ((), removeAllState (filepathJoin d.stateDir req.volumeId) s)) ∧
      (∀ e0, fail = some e0 → filepathJoin d.stateDir req.volumeId ∈ s.dirs →
        DeleteVolume d req fail s =
          .error ⟨.internal,
            "failed to delete volume dir " ++ filepathJoin d.stateDir req.volumeId⟩)) := by
  constructor
  · intro h
    simp [DeleteVolume, h]
  · intro hne
    refine ⟨?_, ?_, ?_⟩
    · intro e he
      unfold DeleteVolume at he
      rw [if_neg hne] at he
      split at he
      · injection he with h1
        rw [← h1]
      · cases he
    · intro hnm
      simp [DeleteVolume, hne, removeAllRes, hnm]
    · intro e0 hf hm
      subst hf
      simp [DeleteVolume, hne, removeAllRes, hm]

/-- Witness for C4 at concrete inputs: empty id rejected; deleting a
never-created id succeeds even under an injected environment failure. -/
theorem C4_deleteVolume_taxonomy_witness :
    DeleteVolume dDemo ⟨""⟩ none sEmpty =
      .error ⟨.invalidArgument, "volume ID is required"⟩ ∧
    DeleteVolume dDemo ⟨"pvc-1"⟩ (some .EACCES) sEmpty =
      .ok ((), removeAllState (filepathJoin dDemo.stateDir "pvc-1") sEmpty) :=
  ⟨(C4_deleteVolume_taxonomy dDemo ⟨""⟩ none sEmpty).1 rfl,
    ((C4_deleteVolume_taxonomy dDemo ⟨"pvc-1"⟩ (some .EACCES) sEmpty).2
      (by decide)).2.1 (by decide)⟩

/-- C5: NodeUnpublishVolume fails with InvalidArgument exactly when the
volume id or the target path is empty (any other failure carries code
Internal); with non-empty arguments it succeeds whenever the target is not
currently mounted, for every injected unmount outcome, leaving the state
unchanged; and a non-EINVAL unmount failure on a mounted target yields an
Internal error. -/
theorem C5_nodeUnpublish_taxonomy (d : Driver) (req : NodeUnpublishVolumeRequest)
    (fail : Option SysErr) (s : FsState) :
    (req.volumeId = "" →
      NodeUnpublishVolume d req fail s = .error ⟨.invalidArgument, "volume ID is required"⟩) ∧
    (req.volumeId ≠ "" → req.targetPath = "" →
      NodeUnpublishVolume d req fail s = .error ⟨.invalidArgument, "target path is required"⟩) ∧
    (req.volumeId ≠ "" → req.targetPath ≠ "" →
      (∀ e, NodeUnpublishVolume d req fail s = .error e → e.code = .internal) ∧
      (isMounted req.targetPath s = false →
        NodeUnpublishVolume d req fail s = .ok ((), s)) ∧
      (∀ e0, fail = some e0 → e0 ≠ .EINVAL → isMounted req.targetPath s = true →
        NodeUnpublishVolume d req fail s =
          .error ⟨.internal, "unmount " ++ req.targetPath ++ " failed"⟩)) := by
  refine ⟨?_, ?_, ?_⟩
  · intro h
    simp [NodeUnpublishVolume, h]
  · intro hid htp
    simp [NodeUnpublishVolume, hid, htp]
  · intro hid htp
    refine ⟨?_, ?_, ?_⟩
    · intro e he
      unfold NodeUnpublishVolume at he
      rw [if_neg hid, if_neg htp] at he
      split at he
      · split at he
        · cases he
        · injection he with h1
          rw [← h1]
      · cases he
    · intro hm
      simp [NodeUnpublishVolume, hid, htp, unmountRes, hm]
    · intro e0 hf hev hm
      subst hf
      simp [NodeUnpublishVolume, hid, htp, unmountRes, hm, hev]

/-- Witness for C5 at concrete inputs: empty target rejected; unpublishing
a never-published target succeeds even under an injected unmount failure. -/
theorem C5_nodeUnpublish_taxonomy_witness :
    NodeUnpublishVolume dDemo ⟨"pvc-1", ""⟩ none sEmpty =
      .error ⟨.invalidArgument, "target path is required"⟩ ∧
    NodeUnpublishVolume dDemo ⟨"pvc-1", "/pods/x/vol"⟩ (some .EBUSY) sEmpty =
      .ok ((), sEmpty) :=
  ⟨(C5_nodeUnpublish_taxonomy dDemo ⟨"pvc-1", ""⟩ none sEmpty).2.1 (by decide) rfl,
    ((C5_nodeUnpublish_taxonomy dDemo ⟨"pvc-1", "/pods/x/vol"⟩ (some .EBUSY) sEmpty).2.2
      (by decide) (by decide)).2.1 (by decide)⟩

theorem createVolume_ok_shape {d : Driver} {req : CreateVolumeRequest} {fail : Option SysErr}
    {s : FsState} {r : CreateVolumeResponse} {s1 : FsState}
    (h : CreateVolume d req fail s = .ok (r, s1)) :
    r = ⟨⟨req.name,
      (match req.capacityRange with | some cr => cr.requiredBytes | none => 0),
      req.parameters⟩⟩ := by
  unfold CreateVolume at h
  by_cases hname : req.name = ""
  · rw [if_pos hname] at h
    cases h
  · rw [if_neg hname] at h
    by_cases hlen : req.volumeCapabilities.length = 0
    · rw [if_pos hlen] at h
      cases h
    · rw [if_neg hlen] at h
      split at h
      · cases h
      · injection h with h1
        injection h1 with h2 h3
        exact h2.symm

/-- C6: every successful CreateVolume response carries volume id equal to
the request's name, capacity equal to the request's required bytes (zero
when no capacity range is given), and context equal to the request's
parameters; and the response is the same whatever the filesystem state,
so no filesystem measurement affects the returned capacity. -/
theorem C6_createVolume_fields (d : Driver) (req : CreateVolumeRequest)
    (fail fail2 : Option SysErr) (s s2 : FsState) (r : CreateVolumeResponse) (s1 : FsState)
    (h : CreateVolume d req fail s = .ok (r, s1)) :
    r.volume.volumeId = req.name ∧
    r.volume.capacityBytes =
      (match req.capacityRange with | some cr => cr.requiredBytes | none => 0) ∧
    r.volume.volumeContext = req.parameters ∧
    (∀ r2 s3, CreateVolume d req fail2 s2 = .ok (r2, s3) → r2 = r) := by
  have hr := createVolume_ok_shape h
  subst hr
  refine ⟨rfl, rfl, rfl, ?_⟩
  intro r2 s3 h2
  exact createVolume_ok_shape h2

/-- Witness for C6 at the spec's scenario: name pvc-1, one single-writer
capability, capacity 1Gi, empty parameters. -/
theorem C6_createVolume_fields_witness :
    CreateVolume dDemo createReqDemo none sEmpty = .ok (rDemo, sAfterCreate) ∧
    (rDemo.volume.volumeId = createReqDemo.name ∧
     rDemo.volume.capacityBytes = 1073741824 ∧
     rDemo.volume.volumeContext = createReqDemo.parameters ∧
     (∀ r2 s3, CreateVolume dDemo createReqDemo none sEmpty = .ok (r2, s3) → r2 = rDemo)) :=
  ⟨rfl,
    C6_createVolume_fields dDemo createReqDemo none none sEmpty sEmpty rDemo sAfterCreate rfl⟩

/-- C7: the logging interceptor returns exactly the response-error pair
produced by the wrapped handler, for every request and every handler
outcome; only the log output differs. -/
theorem C7_logInterceptor_transparent {Req Resp : Type} (fullMethod : String)
    (handler : Req → Option Resp × Option GrpcError) (req : Req) :
    (logInterceptor fullMethod handler req).1 = handler req := by
  unfold logInterceptor
  rcases handler req with ⟨resp, err⟩
  cases err
  · rfl
  · dsimp only
    split <;> rfl

/-- C8: GetPluginInfo returns the same fixed name and version pair on
every call and never returns an error; Probe reports ready for every
present request and errors exactly on the absent (nil) request envelope. -/
theorem C8_identity_fixed (r1 r2 : GetPluginInfoRequest) (p : ProbeRequest) :
    GetPluginInfo r1 = .ok ⟨driverName, driverVersion⟩ ∧
    GetPluginInfo r1 = GetPluginInfo r2 ∧
    Probe (some p) = .ok () ∧
    Probe none = .error ⟨.invalidArgument, "nil request"⟩ :=
  ⟨rfl, rfl, rfl, rfl⟩

/-- C9: the ValidateVolumeCapabilities branch of the controller performs
no filesystem operation: it leaves the state unchanged, its response is
the same for every filesystem state and injected failure, and a request
with allowed modes is confirmed even when the volume was never created. -/
theorem C9_validate_frame (d : Driver) (req : ValidateVolumeCapabilitiesRequest)
    (fail fail2 : Option SysErr) (s s2 : FsState) :
    (∀ r s1, controllerServe d (.validateVolumeCapabilities req) fail s = .ok (r, s1) → s1 = s) ∧
    (controllerServe d (.validateVolumeCapabilities req) fail s).map Prod.fst =
      (controllerServe d (.validateVolumeCapabilities req) fail2 s2).map Prod.fst ∧
    (req.volumeId ≠ "" → req.volumeCapabilities ≠ [] →
      (∀ c ∈ req.volumeCapabilities, c.getMode ∈ allowedModes) →
      controllerServe d (.validateVolumeCapabilities req) fail s =
        .ok (.validateVolumeCapabilities ⟨some ⟨req.volumeCapabilities⟩, ""⟩, s)) := by
  refine ⟨?_, ?_, ?_⟩
  · intro r s1 h
    simp only [controllerServe] at h
    cases hv : ValidateVolumeCapabilities req with
    | error e =>
      rw [hv] at h
      cases h
    | ok resp =>
      rw [hv] at h
      have h' : Except.ok ((ControllerResponse.validateVolumeCapabilities resp, s)) =
          Except.ok (ε := GrpcError) (r, s1) := h
      injection h' with h1
      injection h1 with h2 h3
      exact h3.symm
  · simp only [controllerServe]
    cases ValidateVolumeCapabilities req <;> rfl
  · intro hid hcaps hall
    have hlen : ¬ req.volumeCapabilities.length = 0 := by
      simpa [List.length_eq_zero] using hcaps
    have hany : req.volumeCapabilities.any (fun c => unsupportedMode c.getMode) = false := by
      rw [List.any_eq_false]
      intro c hc
      simp only [unsupportedMode_iff, Decidable.not_not]
      exact hall c hc
    simp [controllerServe, ValidateVolumeCapabilities, hid, hlen, hany, Except.map]

/-- Witness for C9 at a concrete input: a volume never created in the
empty state is still confirmed, with the state unchanged. -/
theorem C9_validate_frame_witness :
    vvcReqGood.volumeId ≠ "" ∧
    controllerServe dDemo (.validateVolumeCapabilities vvcReqGood) none sEmpty =
      .ok (.validateVolumeCapabilities ⟨some ⟨vvcReqGood.volumeCapabilities⟩, ""⟩, sEmpty) :=
  ⟨by decide,
    (C9_validate_frame dDemo vvcReqGood none none sEmpty sEmpty).2.2
      (by decide) (by decide) (by decide)⟩

/-- C10: a capability whose access-mode message is absent (or explicitly
UNKNOWN, the proto zero value) makes ValidateVolumeCapabilities return the
soft-rejection response — no confirmation, non-empty message — rather
than an InvalidArgument error, whenever the volume id and the capability
list are non-empty. -/
theorem C10_validate_absent_mode (req : ValidateVolumeCapabilitiesRequest)
    (c : VolumeCapability) (hid : req.volumeId ≠ "")
    (hmem : c ∈ req.volumeCapabilities) (hmode : c.getMode = .UNKNOWN) :
    ValidateVolumeCapabilities req = .ok ⟨none, "unsupported access mode"⟩ ∧
    ("unsupported access mode" : String) ≠ "" := by
  have hlen : ¬ req.volumeCapabilities.length = 0 := by
    intro h
    rw [List.length_eq_zero] at h
    rw [h] at hmem
    cases hmem
  have hum : unsupportedMode c.getMode = true := by
    rw [hmode]
    rfl
  have hany : req.volumeCapabilities.any (fun x => unsupportedMode x.getMode) = true :=
    List.any_eq_true.mpr ⟨c, hmem, hum⟩
  exact ⟨by simp [ValidateVolumeCapabilities, hid, hlen, hany], by decide⟩

/-- Witness for C10: a request with one capability whose access-mode
message is absent is softly rejected. -/
theorem C10_validate_absent_mode_witness :
    (⟨none⟩ : VolumeCapability) ∈ vvcReqNoMode.volumeCapabilities ∧
    (⟨none⟩ : VolumeCapability).getMode = .UNKNOWN ∧
    ValidateVolumeCapabilities vvcReqNoMode = .ok ⟨none, "unsupported access mode"⟩ :=
  ⟨by decide, by decide,
    (C10_validate_absent_mode vvcReqNoMode ⟨none⟩ (by decide) (by decide) (by decide)).1⟩

end DemoCsi
